import Mathlib

/-!
Verification of the `ractor` actor-framework repository against its
natural-language specification.  The development shallowly embeds the code
that is present under the repository sources (the counter example and the
ping-pong documentation example) and, for the runtime components whose
implementation modules are declared but not shipped in the sources, models
the documented behavior directly from the specification text.
-/

namespace Ractor

/-! ## The counter example (`examples/counter.rs`)

The counter actor keeps an `i64` count.  Rust release-mode `i64` addition
wraps modulo `2^64` in the two-complement range, which we model explicitly
with `wrap64` over `Int`. -/

/-- Two-complement wrap of an integer into the `i64` range
`[-2^63, 2^63)`, modelling Rust wrapping `i64` arithmetic. -/
def wrap64 (x : Int) : Int :=
  (x + 2 ^ 63) % 2 ^ 64 - 2 ^ 63

/-- The `i64` range predicate: `-2^63 ≤ x < 2^63`. -/
def i64InRange (x : Int) : Prop :=
  -(2 ^ 63) ≤ x ∧ x < 2 ^ 63

instance : DecidablePred i64InRange := fun x =>
  inferInstanceAs (Decidable (-(2 ^ 63) ≤ x ∧ x < 2 ^ 63))

/-- Model of `ractor::RpcReplyPort` as observed by the counter handler.
The handler makes two observations of the port: the result of the
`is_closed()` check, and whether the subsequent `send` succeeds.  Because
the caller may drop or time out the port concurrently, the two
observations are sampled independently (closing is irreversible, so a port
closed at the check is also closed at the send). -/
structure RpcReplyPort where
  /-- Result of the `is_closed()` check performed by the handler. -/
  closedAtCheck : Bool
  /-- Whether the port is closed at the moment the handler calls `send`
  (a send into a closed port returns an error). -/
  closedAtSend : Bool
deriving DecidableEq

/-- `CounterState` from `examples/counter.rs`: a single `i64` count. -/
structure CounterState where
  count : Int
deriving DecidableEq

/-- `CounterMessage` from `examples/counter.rs`. -/
inductive CounterMessage where
  | Increment (howMuch : Int)
  | Decrement (howMuch : Int)
  | Retrieve (replyPort : RpcReplyPort)
deriving DecidableEq

/-- The counter `handle` hook from `examples/counter.rs`.  Returns
`Except.error ()` when the handler panics (the `unwrap()` on a failed
reply send), and otherwise the updated state together with the list of
values sent through the reply port by this invocation. -/
def Counter.handle (message : CounterMessage) (state : CounterState) :
    Except Unit (CounterState × List Int) :=
  match message with
  | .Increment howMuch =>
      .ok ({ count := wrap64 (state.count + howMuch) }, [])
  | .Decrement howMuch =>
      .ok ({ count := wrap64 (state.count - howMuch) }, [])
  | .Retrieve replyPort =>
      if !replyPort.closedAtCheck then
        if replyPort.closedAtSend then
          -- `reply_port.send(state.count).unwrap()` panics on a failed send
          .error ()
        else
          .ok (state, [state.count])
      else
        .ok (state, [])

/-- `pre_start` of the counter: the initial state has `count = 0`. -/
def Counter.preStart : CounterState := { count := 0 }

/-- Process a list of messages in order with `Counter.handle`, collecting
every value sent through reply ports; a handler panic aborts the run. -/
def Counter.run (messages : List CounterMessage) (state : CounterState) :
    Except Unit (CounterState × List Int) :=
  match messages with
  | [] => .ok (state, [])
  | message :: rest =>
      match Counter.handle message state with
      | .error e => .error e
      | .ok (state1, sent1) =>
          match Counter.run rest state1 with
          | .error e => .error e
          | .ok (state2, sent2) => .ok (state2, sent1 ++ sent2)

/-- A fresh, open reply port as created by `call`: not closed at the check
and not closed at the send (the caller is still waiting). -/
def freshPort : RpcReplyPort := { closedAtCheck := false, closedAtSend := false }

/-- One batch of the `main` loop of `examples/counter.rs`:
`Increment(5)`, `Increment(10)`, `Decrement(5)`, then a `call` whose
message is `Retrieve` with a fresh reply port. -/
def counterBatch : List CounterMessage :=
  [.Increment 5, .Increment 10, .Decrement 5, .Retrieve freshPort]

/-- `counterBatch` repeated `k` times. -/
def counterBatches (k : Nat) : List CounterMessage :=
  match k with
  | 0 => []
  | k + 1 => counterBatch ++ counterBatches k

/-- Whether a counter message is one of the arithmetic messages
(`Increment` or `Decrement`), as opposed to `Retrieve`. -/
def CounterMessage.isArith : CounterMessage → Bool
  | .Increment _ => true
  | .Decrement _ => true
  | .Retrieve _ => false

/-- The signed amount an arithmetic counter message adds to the count. -/
def CounterMessage.delta : CounterMessage → Int
  | .Increment howMuch => howMuch
  | .Decrement howMuch => -howMuch
  | .Retrieve _ => 0

/-! ## The ping-pong documentation example (`src/lib.rs` crate docs)

The `PingPong` actor from the crate-level documentation: state is a `u8`
counter starting at `0`; `pre_start` sends `Ping` to itself; the handler
prints the message, sends `next(message)` back to itself and increments
the state while the state is below `10`, and stops the actor otherwise. -/

/-- The `Message` enum of the `PingPong` documentation example. -/
inductive PPMessage where
  | Ping
  | Pong
deriving DecidableEq

/-- `Message::next` of the ping-pong example: the next message in the
sequence. -/
def PPMessage.next : PPMessage → PPMessage
  | .Ping => .Pong
  | .Pong => .Ping

/-- The string printed by `Message::print` of the ping-pong example. -/
def PPMessage.printed : PPMessage → String
  | .Ping => "ping.."
  | .Pong => "pong.."

/-- Snapshot of a `PingPong` actor run: its self-addressed message queue,
its `u8` state, the accumulated printed output, and whether `stop` has
been called. -/
structure PPRun where
  queue : List PPMessage
  state : Nat
  output : List String
  stopped : Bool
deriving DecidableEq

/-- The `handle` hook of the ping-pong example: given the dequeued message
and the `u8` state, return the messages it sends to itself, the new state
(with `u8` wrapping), the strings it prints, and whether it called
`stop`. -/
def PingPong.handle (message : PPMessage) (state : Nat) :
    List PPMessage × Nat × List String × Bool :=
  if state < 10 then
    ([message.next], (state + 1) % 256, [message.printed], false)
  else
    ([], state, [], true)

/-- The state of the ping-pong actor right after `pre_start`: `Ping` is in
its own mailbox and the state is `0`. -/
def PingPong.start : PPRun :=
  { queue := [.Ping], state := 0, output := [], stopped := false }

/-- Drive the ping-pong actor for up to `fuel` handler invocations,
dequeuing its self-addressed messages in FIFO order; the run ends when
the actor has stopped or its queue is empty. -/
def PingPong.run (fuel : Nat) (st : PPRun) : PPRun :=
  match fuel with
  | 0 => st
  | fuel + 1 =>
      if st.stopped then st
      else
        match st.queue with
        | [] => st
        | message :: rest =>
            let (sends, state, out, stop) := PingPong.handle message st.state
            PingPong.run fuel
              { queue := rest ++ sends, state := state,
                output := st.output ++ out, stopped := stop }

/-! ## The four-class priority mailbox

The mailbox implementation module (`src/actor`) is declared but not
present in the sources; it is modelled from the specification. -/

/-- Modelled from the spec: an envelope in the mailbox belongs to one of
the four message classes Signal, Stop, Supervision, Message (crate docs,
Messaging actors; spec section 4.1). -/
inductive Envelope (α β γ δ : Type) where
  | signal (s : α)
  | stop (t : β)
  | supervision (u : γ)
  | message (m : δ)
deriving DecidableEq

/-- Modelled from the spec: the per-actor mailbox holds four logically
distinct FIFO queues, one per class (spec section 3, Mailbox). -/
structure Mailbox (α β γ δ : Type) where
  signalQ : List α
  stopQ : List β
  supervisionQ : List γ
  messageQ : List δ
deriving DecidableEq

/-- Modelled from the spec: `enqueue` classifies an envelope into its
class and appends it at the tail of that class (spec section 4.1). -/
def Mailbox.enqueue (mb : Mailbox α β γ δ) (e : Envelope α β γ δ) :
    Mailbox α β γ δ :=
  match e with
  | .signal s => { mb with signalQ := mb.signalQ ++ [s] }
  | .stop t => { mb with stopQ := mb.stopQ ++ [t] }
  | .supervision u => { mb with supervisionQ := mb.supervisionQ ++ [u] }
  | .message m => { mb with messageQ := mb.messageQ ++ [m] }

/-- Modelled from the spec: `dequeue_next` returns the head of the
highest-priority non-empty class, under Signal > Stop > Supervision >
Message, or `none` when all four classes are empty (the suspension case;
spec section 4.1 and invariant I2). -/
def Mailbox.dequeueNext (mb : Mailbox α β γ δ) :
    Option (Envelope α β γ δ × Mailbox α β γ δ) :=
  match mb.signalQ with
  | s :: rest => some (.signal s, { mb with signalQ := rest })
  | [] =>
    match mb.stopQ with
    | t :: rest => some (.stop t, { mb with stopQ := rest })
    | [] =>
      match mb.supervisionQ with
      | u :: rest => some (.supervision u, { mb with supervisionQ := rest })
      | [] =>
        match mb.messageQ with
        | m :: rest => some (.message m, { mb with messageQ := rest })
        | [] => none

/-! ## The lifecycle driver

The lifecycle driver module is declared but not present in the sources;
it is modelled from the specification (spec sections 4.2 and 5, crate
docs on the four message classes, Kill, and Stop). -/

/-- `ActorStatus` as documented: the lifecycle states of an actor. -/
inductive ActorStatus where
  | unstarted
  | starting
  | running
  | stopping
  | stopped
  | failed
deriving DecidableEq

/-- Modelled from the spec: an observable snapshot of one actor and its
lifecycle driver.  `inFlight = some k` means a message handler is
currently executing and needs `k` further micro-steps of asynchronous
work to complete; `handled` counts completed message handlers;
`postStopRan` records whether the `post_stop` cleanup hook has run;
`killed` records whether a Kill signal has been dequeued.  Message
envelopes carry the cost (in micro-steps) of their handler. -/
structure Driver where
  status : ActorStatus
  mb : Mailbox Unit (Option String) Unit Nat
  inFlight : Option Nat
  handled : Nat
  postStopRan : Bool
  killed : Bool
deriving DecidableEq

/-- Modelled from the spec: one scheduling micro-step of the lifecycle
driver.  Signals pre-empt everything, including in-flight handler work,
and terminate the actor without running `post_stop` (I5); a Stop request
is observed only when no handler is in flight, moves the actor to
`stopping`, and the next step runs `post_stop` and reaches `stopped`;
otherwise the driver continues in-flight work to completion, or dequeues
the next envelope in priority order. -/
def Driver.step (d : Driver) : Driver :=
  match d.status with
  | .running =>
    match d.mb.signalQ with
    | _ :: rest =>
        -- Kill: abrupt abort; in-flight work is dropped, post_stop is not run
        { d with status := .stopped, mb := { d.mb with signalQ := rest },
                 inFlight := none, killed := true }
    | [] =>
      match d.inFlight with
      | some (k + 1) => { d with inFlight := some k }
      | some 0 => { d with inFlight := none, handled := d.handled + 1 }
      | none =>
        match d.mb.dequeueNext with
        | none => d
        | some (env, mb1) =>
          match env with
          | .signal _ =>
              { d with status := .stopped, inFlight := none,
                       killed := true, mb := mb1 }
          | .stop _ => { d with status := .stopping, mb := mb1 }
          | .supervision _ => { d with mb := mb1 }
          | .message cost => { d with inFlight := some cost, mb := mb1 }
  | .stopping =>
      -- run the post_stop cleanup hook, then reach stopped
      { d with status := .stopped, postStopRan := true }
  | _ => d

/-- Iterate the driver for `n` micro-steps. -/
def Driver.iter (n : Nat) (d : Driver) : Driver :=
  match n with
  | 0 => d
  | n + 1 => Driver.iter n d.step

/-- The driver sanity invariant: once a Kill has been dequeued the actor
is terminal with no cleanup run, and the cleanup hook only ever runs on a
terminal actor. -/
def Driver.Inv (d : Driver) : Prop :=
  (d.killed = true → d.postStopRan = false ∧ d.status = .stopped) ∧
  (d.postStopRan = true → d.status = .stopped)

instance : DecidablePred Driver.Inv := fun d =>
  inferInstanceAs (Decidable
    ((d.killed = true → d.postStopRan = false ∧ d.status = .stopped) ∧
     (d.postStopRan = true → d.status = .stopped)))

/-! ## Spawn and failure propagation

The spawn and supervision implementation is declared but not present in
the sources; modelled from the specification (spec sections 4.2, 4.4, 7)
and the crate-docs NOTE on `pre_start` panics. -/

/-- `SupervisionEvent` as documented: child started, terminated with an
optional reason, or failed with a captured error description. -/
inductive SupervisionEvent where
  | actorStarted (child : Nat)
  | actorTerminated (child : Nat) (reason : Option String)
  | actorFailed (child : Nat) (err : String)
deriving DecidableEq

/-- Modelled from the spec: `SpawnErr` covers a `pre_start` failure (the
naming-conflict case belongs to the external registry collaborator). -/
inductive SpawnErr (ε : Type) where
  | startupFailed (e : ε)
deriving DecidableEq

/-- Modelled from the spec: `spawn` runs the `pre_start` hook; a failure
there makes spawn itself return an error to its caller, and no
SupervisionEvent is emitted because the actor has no linked supervisor
yet (crate docs NOTE; spec section 7).  The second component is the list
of supervision events emitted during the spawn, tagged by recipient. -/
def spawn {σ ε : Type} (preStart : Except ε σ) :
    Except (SpawnErr ε) σ × List (Nat × SupervisionEvent) :=
  match preStart with
  | .error e => (.error (.startupFailed e), [])
  | .ok s => (.ok s, [])

/-- Modelled from the spec: a failure raised inside any lifecycle hook
after `pre_start` (post_start, handle, handle_supervisor_evt, post_stop)
converts into a SupervisionEvent delivered to every linked supervisor,
and the actor terminates as `failed` (spec sections 4.2 and 7). -/
def hookFailure (child : Nat) (supervisors : List Nat) (err : String) :
    ActorStatus × List (Nat × SupervisionEvent) :=
  (.failed, supervisors.map fun sup => (sup, .actorFailed child err))

/-! ## The reply port and call outcomes

The port and rpc modules are declared but not present in the sources;
modelled from the specification (spec sections 3 and 4.3). -/

/-- Modelled from the spec: the state of a Reply Port, which holds at
most one value or is closed; closing is irreversible. -/
inductive PortState where
  | empty
  | holding (v : Int)
  | closed
deriving DecidableEq

/-- Modelled from the spec: sending into a Reply Port succeeds exactly
when the port is empty; a port already holding its single value, or
closed, rejects the send. -/
def PortState.send : PortState → Int → PortState × Bool
  | .empty, v => (.holding v, true)
  | .holding w, _ => (.holding w, false)
  | .closed, _ => (.closed, false)

/-- Fold a sequence of send attempts over a port, counting how many
deliver a value. -/
def PortState.sendAll : PortState → List Int → PortState × Nat
  | p, [] => (p, 0)
  | p, v :: vs =>
      let (p1, ok) := PortState.send p v
      let (p2, n) := PortState.sendAll p1 vs
      (p2, (if ok then 1 else 0) + n)

/-- Modelled from the spec: the two error kinds of a `call`, kept
separate — the Reply Port was closed without a value, or the optional
deadline elapsed. -/
inductive CallError where
  | closedNoValue
  | timedOut
deriving DecidableEq

/-- Modelled from the spec: the outcome a `call` reports to its caller:
a timeout if the deadline elapsed first, otherwise the held value if one
was delivered, otherwise the closed-without-value error.  Every case is
reported as a value of this result type; none panics. -/
def callOutcome (deadlineElapsed : Bool) (final : PortState) :
    Except CallError Int :=
  if deadlineElapsed then .error .timedOut
  else
    match final with
    | .holding v => .ok v
    | _ => .error .closedNoValue

/-! ## Theorems -/

set_option maxRecDepth 8000

/-- Wrapping twice is the same as wrapping once: the inner wrap of the
left summand is absorbed. -/
theorem wrap64_wrap64_add (x y : Int) : wrap64 (wrap64 x + y) = wrap64 (x + y) := by
  unfold wrap64
  norm_num
  omega

/-- Wrapping twice is the same as wrapping once, subtraction form. -/
theorem wrap64_wrap64_sub (x y : Int) : wrap64 (wrap64 x - y) = wrap64 (x - y) := by
  unfold wrap64
  norm_num
  omega

/-- Wrapping is the identity on the `i64` range. -/
theorem wrap64_eq_self (x : Int) (h : i64InRange x) : wrap64 x = x := by
  unfold wrap64
  unfold i64InRange at h
  norm_num at h ⊢
  omega

/-- Running the counter over arithmetic messages only never panics, sends
nothing, and ends at the wrap of the start count plus the signed sum of
the message amounts. -/
theorem counter_run_arith (l : List CounterMessage) (c : Int)
    (h : ∀ m ∈ l, m.isArith = true) :
    Counter.run l { count := wrap64 c } =
      .ok ({ count := wrap64 (c + (l.map CounterMessage.delta).sum) }, []) := by
  induction l generalizing c with
  | nil => simp [Counter.run]
  | cons m rest ih =>
      have hm : m.isArith = true := h m (List.mem_cons_self m rest)
      have hrest : ∀ m ∈ rest, m.isArith = true :=
        fun x hx => h x (List.mem_cons_of_mem m hx)
      cases m with
      | Increment n =>
          simp only [Counter.run, Counter.handle]
          rw [wrap64_wrap64_add, ih (c + n) hrest]
          simp [CounterMessage.delta]
          ring_nf
      | Decrement n =>
          simp only [Counter.run, Counter.handle]
          rw [wrap64_wrap64_sub, ih (c - n) hrest]
          simp [CounterMessage.delta]
          ring_nf
      | Retrieve p => simp [CounterMessage.isArith] at hm

/-- C1: starting from the initial state produced by pre_start
(count = 0), folding the counter message handler over the batch
Increment(5), Increment(10), Decrement(5) and then answering a Retrieve
call yields reply 10; repeating the batch-plus-call up to four times
yields the replies 10, 20, 30, 40 in order, and after the k-th batch the
count equals 10 * k. -/
theorem counter_scenario_replies :
    Counter.run (counterBatches 1) Counter.preStart = .ok ({ count := 10 }, [10]) ∧
    Counter.run (counterBatches 2) Counter.preStart = .ok ({ count := 20 }, [10, 20]) ∧
    Counter.run (counterBatches 3) Counter.preStart = .ok ({ count := 30 }, [10, 20, 30]) ∧
    Counter.run (counterBatches 4) Counter.preStart = .ok ({ count := 40 }, [10, 20, 30, 40]) :=
  ⟨rfl, rfl, rfl, rfl⟩

/-- C2 counterexample: a Retrieve whose reply port passes the
is_closed check but whose send then fails (the port was closed
concurrently in between) makes the handler panic — the unwrap on the
failed send — so a failure of the reply send IS treated as fatal,
refuting the claim as stated. -/
theorem counter_retrieve_unwrap_panics :
    Counter.handle (.Retrieve { closedAtCheck := false, closedAtSend := true })
      { count := 0 } = .error () := rfl

/-- C2 (amended): for every Retrieve message, the handler checks whether
the reply port is closed before sending and sends the current count only
when the port is not closed — a port already closed at the check is
skipped without any error; however, if the send itself fails after the
check passed, the handler unwraps the failure and panics. -/
theorem counter_retrieve_check_before_send (p : RpcReplyPort) (s : CounterState) :
    (p.closedAtCheck = true → Counter.handle (.Retrieve p) s = .ok (s, [])) ∧
    (p.closedAtCheck = false → p.closedAtSend = false →
      Counter.handle (.Retrieve p) s = .ok (s, [s.count])) ∧
    (p.closedAtCheck = false → p.closedAtSend = true →
      Counter.handle (.Retrieve p) s = .error ()) := by
  refine ⟨fun h1 => ?_, fun h1 h2 => ?_, fun h1 h2 => ?_⟩
  · simp [Counter.handle, h1]
  · simp [Counter.handle, h1, h2]
  · simp [Counter.handle, h1, h2]

/-- C2 witness: the amended theorem applied at a concrete closed port. -/
theorem counter_retrieve_check_before_send_witness :
    Counter.handle (.Retrieve { closedAtCheck := true, closedAtSend := true })
      { count := 3 } = .ok ({ count := 3 }, []) :=
  (counter_retrieve_check_before_send _ _).1 rfl

/-- C8: handling a Retrieve message leaves the counter state unchanged:
whenever the handler completes on Retrieve(p) from state s, the resulting
count equals the count of s — the query is read-only. -/
theorem counter_retrieve_preserves_count (s : CounterState) (p : RpcReplyPort)
    (r : CounterState × List Int)
    (h : Counter.handle (.Retrieve p) s = .ok r) : r.1.count = s.count := by
  cases hc : p.closedAtCheck <;> cases hs : p.closedAtSend <;>
    simp [Counter.handle, hc, hs] at h <;> simp [← h]

/-- C8 witness: the theorem applied at state with count 7 and a fresh
port. -/
theorem counter_retrieve_preserves_count_witness :
    ((⟨7⟩ : CounterState), ([7] : List Int)).1.count = (⟨7⟩ : CounterState).count :=
  counter_retrieve_preserves_count ⟨7⟩ freshPort (⟨7⟩, [7]) rfl

/-- C9: for every in-range count c and amount n, handling Increment(n)
then Decrement(n) restores the count to c; and the Increment and
Decrement handlers commute — any permutation of a fixed multiset of
arithmetic messages yields the same final count. -/
theorem counter_inc_dec_cancel_perm (c n : Int) (h : i64InRange c) :
    Counter.run [.Increment n, .Decrement n] { count := c } = .ok ({ count := c }, []) ∧
    ∀ l l2 : List CounterMessage, (∀ m ∈ l, m.isArith = true) → l.Perm l2 →
      Counter.run l { count := c } = Counter.run l2 { count := c } := by
  constructor
  · have h1 := counter_run_arith [.Increment n, .Decrement n] c
      (by intro m hm; fin_cases hm <;> rfl)
    rw [wrap64_eq_self c h] at h1
    have hsum : (([CounterMessage.Increment n, CounterMessage.Decrement n]).map
        CounterMessage.delta).sum = 0 := by simp [CounterMessage.delta]
    rw [hsum, add_zero, wrap64_eq_self c h] at h1
    exact h1
  · intro l l2 hl hperm
    have hl2 : ∀ m ∈ l2, m.isArith = true := fun x hx => hl x (hperm.mem_iff.mpr hx)
    have h1 := counter_run_arith l c hl
    have h2 := counter_run_arith l2 c hl2
    rw [wrap64_eq_self c h] at h1 h2
    rw [h1, h2, List.Perm.sum_eq (hperm.map CounterMessage.delta)]

/-- C9 witness: the theorem applied at count 0 and amount 5. -/
theorem counter_inc_dec_cancel_perm_witness :
    Counter.run [.Increment 5, .Decrement 5] { count := 0 } = .ok ({ count := 0 }, []) :=
  (counter_inc_dec_cancel_perm 0 5 (by decide)).1

/-- C10: the PingPong example, started from state 0 with Ping sent in
pre_start, satisfies: next is an involution; the run prints exactly 10
messages, alternating ping and pong starting with ping — the documented
output of ping..pong.. five times — and the actor stops. -/
theorem pingpong_run :
    (∀ m : PPMessage, m.next.next = m) ∧
    PingPong.run 12 PingPong.start =
      { queue := [], state := 10,
        output := ["ping..", "pong..", "ping..", "pong..", "ping..", "pong..",
                   "ping..", "pong..", "ping..", "pong.."],
        stopped := true } ∧
    String.join (PingPong.run 12 PingPong.start).output =
      "ping..pong..ping..pong..ping..pong..ping..pong..ping..pong.." ∧
    (PingPong.run 12 PingPong.start).output.length = 10 :=
  ⟨fun m => by cases m <;> rfl, rfl, rfl, rfl⟩

/-- C4: for any mailbox contents, dequeue_next returns the head of the
highest-priority non-empty class under the strict order
Signal > Stop > Supervision > Message; a lower class is never consulted
while a higher class is non-empty, and an all-empty mailbox yields
nothing (the suspension case). -/
theorem dequeue_next_priority {α β γ δ : Type} (mb : Mailbox α β γ δ) :
    (∀ s rest, mb.signalQ = s :: rest →
      mb.dequeueNext = some (.signal s, { mb with signalQ := rest })) ∧
    (mb.signalQ = [] → ∀ t rest, mb.stopQ = t :: rest →
      mb.dequeueNext = some (.stop t, { mb with stopQ := rest })) ∧
    (mb.signalQ = [] → mb.stopQ = [] → ∀ u rest, mb.supervisionQ = u :: rest →
      mb.dequeueNext = some (.supervision u, { mb with supervisionQ := rest })) ∧
    (mb.signalQ = [] → mb.stopQ = [] → mb.supervisionQ = [] →
      ∀ m rest, mb.messageQ = m :: rest →
      mb.dequeueNext = some (.message m, { mb with messageQ := rest })) ∧
    (mb.signalQ = [] → mb.stopQ = [] → mb.supervisionQ = [] → mb.messageQ = [] →
      mb.dequeueNext = none) := by
  obtain ⟨sq, tq, uq, mq⟩ := mb
  refine ⟨fun s rest hs => ?_, fun hs t rest ht => ?_, fun hs ht u rest hu => ?_,
          fun hs ht hu m rest hm => ?_, fun hs ht hu hm => ?_⟩ <;>
    simp_all [Mailbox.dequeueNext]

/-- C4 witness: the theorem applied at a mailbox with all four classes
non-empty. -/
theorem dequeue_next_priority_witness :
    Mailbox.dequeueNext (Mailbox.mk [1] [2] [3] [4]) =
      some (.signal 1, Mailbox.mk ([] : List Nat) [2] [3] [4]) :=
  (dequeue_next_priority (Mailbox.mk [1] [2] [3] [4])).1 1 [] rfl

/-- One driver micro-step preserves the driver sanity invariant. -/
theorem Driver.step_inv (d : Driver) (h : d.Inv) : d.step.Inv := by
  obtain ⟨h1, h2⟩ := h
  have hkf : d.status ≠ .stopped → d.killed = false := by
    intro hns
    cases hk : d.killed
    · rfl
    · exact absurd (h1 hk).2 hns
  have hpf : d.status ≠ .stopped → d.postStopRan = false := by
    intro hns
    cases hp : d.postStopRan
    · rfl
    · exact absurd (h2 hp) hns
  cases hst : d.status
  case unstarted =>
      have hid : d.step = d := by simp [Driver.step, hst]
      rw [hid]; exact ⟨h1, h2⟩
  case starting =>
      have hid : d.step = d := by simp [Driver.step, hst]
      rw [hid]; exact ⟨h1, h2⟩
  case stopped =>
      have hid : d.step = d := by simp [Driver.step, hst]
      rw [hid]; exact ⟨h1, h2⟩
  case failed =>
      have hid : d.step = d := by simp [Driver.step, hst]
      rw [hid]; exact ⟨h1, h2⟩
  case stopping =>
      have hk := hkf (by simp [hst])
      simp [Driver.step, hst, Driver.Inv, hk]
  case running =>
      have hk := hkf (by simp [hst])
      have hp := hpf (by simp [hst])
      cases hsig : d.mb.signalQ with
      | cons s rest => simp [Driver.step, hst, hsig, Driver.Inv, hp]
      | nil =>
          cases hif : d.inFlight with
          | some k =>
              cases k <;> simp [Driver.step, hst, hsig, hif, Driver.Inv, hk, hp]
          | none =>
              cases hdq : d.mb.dequeueNext with
              | none =>
                  have hid : d.step = d := by simp [Driver.step, hst, hsig, hif, hdq]
                  rw [hid]; exact ⟨h1, h2⟩
              | some pair =>
                  obtain ⟨env, mb1⟩ := pair
                  cases env <;>
                    simp [Driver.step, hst, hsig, hif, hdq, Driver.Inv, hk, hp]

/-- Any number of driver micro-steps preserves the sanity invariant. -/
theorem Driver.iter_inv (n : Nat) (d : Driver) (h : d.Inv) : (Driver.iter n d).Inv := by
  induction n generalizing d with
  | zero => exact h
  | succ n ih => exact ih d.step (Driver.step_inv d h)

/-- C3: once a Kill signal is pending, the very next driver step reaches
stopped with the in-flight handler work aborted (not completed) and
post_stop not run; and from any state satisfying the driver invariant,
every state reached after a Kill was dequeued has post_stop never run and
status stopped. -/
theorem kill_skips_post_stop (d : Driver) (n : Nat) (h : d.Inv) :
    (d.status = .running → d.mb.signalQ ≠ [] →
      d.step.status = .stopped ∧ d.step.killed = true ∧
      d.step.inFlight = none ∧ d.step.handled = d.handled ∧
      d.step.postStopRan = false) ∧
    ((Driver.iter n d).killed = true →
      (Driver.iter n d).postStopRan = false ∧
      (Driver.iter n d).status = .stopped) := by
  constructor
  · intro hst hsig
    obtain ⟨s, rest, hcons⟩ := List.exists_cons_of_ne_nil hsig
    have hp : d.postStopRan = false := by
      cases hpp : d.postStopRan
      · rfl
      · exact absurd (h.2 hpp) (by simp [hst])
    simp [Driver.step, hst, hcons, hp]
  · exact (Driver.iter_inv n d h).1

/-- C3 witness: a running driver with a pending Kill and an in-flight
handler, run for four steps, has not run post_stop. -/
theorem kill_skips_post_stop_witness :
    (Driver.iter 4
      (Driver.mk .running (Mailbox.mk [()] [] [] [5]) (some 3) 0 false false)).postStopRan
      = false :=
  ((kill_skips_post_stop _ 4 (by decide)).2 (by decide)).1

/-- While a handler is in flight and no signal is pending, the driver
only continues the handler: after any j of the remaining micro-steps the
actor is still running, has completed no extra handler, and its mailbox
— including any queued Stop request — is untouched. -/
theorem Driver.inflight_progress (j : Nat) :
    ∀ (k : Nat) (d : Driver), d.status = .running → d.inFlight = some k →
      d.mb.signalQ = [] → j ≤ k →
      (Driver.iter j d).status = .running ∧
      (Driver.iter j d).inFlight = some (k - j) ∧
      (Driver.iter j d).handled = d.handled ∧
      (Driver.iter j d).mb = d.mb ∧
      (Driver.iter j d).postStopRan = d.postStopRan := by
  induction j with
  | zero =>
      intro k d hst hif hsig hj
      simpa [Driver.iter, hst] using hif
  | succ j ih =>
      intro k d hst hif hsig hj
      cases k with
      | zero => omega
      | succ k =>
          have hstep : d.step = { d with inFlight := some k } := by
            simp [Driver.step, hst, hsig, hif]
          have := ih k { d with inFlight := some k } (by simp [hst]) rfl (by simp [hsig])
            (by omega)
          rw [show Driver.iter (j + 1) d = Driver.iter j d.step from rfl, hstep]
          simpa using this

/-- An in-flight handler with k micro-steps of work left, absent any
signal, runs to completion in exactly k + 1 driver steps. -/
theorem Driver.run_inflight (k : Nat) :
    ∀ (d : Driver), d.status = .running → d.inFlight = some k →
      d.mb.signalQ = [] →
      Driver.iter (k + 1) d = { d with inFlight := none, handled := d.handled + 1 } := by
  induction k with
  | zero =>
      intro d hst hif hsig
      show Driver.iter 0 d.step = _
      simp [Driver.iter, Driver.step, hst, hsig, hif]
  | succ k ih =>
      intro d hst hif hsig
      have hstep : d.step = { d with inFlight := some k } := by
        simp [Driver.step, hst, hsig, hif]
      rw [show Driver.iter (k + 1 + 1) d = Driver.iter (k + 1) d.step from rfl, hstep]
      rw [ih { d with inFlight := some k } (by simp [hst]) rfl (by simp [hsig])]

/-- C5: a Stop request never interrupts a currently executing handler:
with a Stop queued and a handler in flight, every intermediate state is
still running with the Stop untouched in the mailbox, the in-flight
handler runs to completion, and only afterwards — at the next scheduling
decision — does the driver observe the Stop, move to stopping, and run
the post_stop hook. -/
theorem stop_waits_for_handler (d : Driver) (k : Nat)
    (hst : d.status = .running) (hif : d.inFlight = some k)
    (hsig : d.mb.signalQ = []) (hstop : d.mb.stopQ ≠ []) :
    (∀ j, j ≤ k → (Driver.iter j d).status = .running ∧
      (Driver.iter j d).handled = d.handled ∧
      (Driver.iter j d).postStopRan = d.postStopRan ∧
      (Driver.iter j d).mb = d.mb) ∧
    Driver.iter (k + 1) d = { d with inFlight := none, handled := d.handled + 1 } ∧
    (Driver.iter (k + 1) d).step.status = .stopping ∧
    (Driver.iter (k + 1) d).step.postStopRan = d.postStopRan ∧
    (Driver.iter (k + 1) d).step.handled = d.handled + 1 ∧
    (Driver.iter (k + 1) d).step.step.status = .stopped ∧
    (Driver.iter (k + 1) d).step.step.postStopRan = true := by
  obtain ⟨t, rest, hcons⟩ := List.exists_cons_of_ne_nil hstop
  have hrun := Driver.run_inflight k d hst hif hsig
  have hstep1 : (Driver.iter (k + 1) d).step =
      { d with inFlight := none, handled := d.handled + 1,
               status := .stopping, mb := { d.mb with stopQ := rest } } := by
    rw [hrun]
    simp [Driver.step, hst, hsig, Mailbox.dequeueNext, hcons]
  refine ⟨?_, hrun, ?_, ?_, ?_, ?_, ?_⟩
  · intro j hj
    have := Driver.inflight_progress j k d hst hif hsig hj
    exact ⟨this.1, this.2.2.1, this.2.2.2.2, this.2.2.2.1⟩
  · rw [hstep1]
  · rw [hstep1]
  · rw [hstep1]
  · rw [hstep1]; simp [Driver.step]
  · rw [hstep1]; simp [Driver.step]

/-- C5 witness: a running driver with a queued Stop and a handler needing
two more micro-steps runs the post_stop hook only after the handler
completes. -/
theorem stop_waits_for_handler_witness :
    (Driver.iter 3
      (Driver.mk .running (Mailbox.mk [] [none] [] []) (some 2) 0 false
        false)).step.step.postStopRan = true :=
  (stop_waits_for_handler
    (Driver.mk .running (Mailbox.mk [] [none] [] []) (some 2) 0 false false)
    2 rfl rfl rfl (by simp)).2.2.2.2.2.2

/-- C6: a pre_start failure makes spawn itself return the error to its
caller with no SupervisionEvent emitted; a failure in any later lifecycle
hook terminates the actor as failed and delivers a SupervisionEvent to
every linked supervisor, one per supervisor. -/
theorem failure_propagation {σ ε : Type} (e : ε) (child : Nat)
    (supervisors : List Nat) (err : String) :
    spawn (σ := σ) (.error e) = (.error (.startupFailed e), []) ∧
    (hookFailure child supervisors err).1 = .failed ∧
    (hookFailure child supervisors err).2.length = supervisors.length ∧
    ∀ sup ∈ supervisors,
      (sup, SupervisionEvent.actorFailed child err) ∈
        (hookFailure child supervisors err).2 := by
  refine ⟨rfl, rfl, by simp [hookFailure], fun sup hsup => ?_⟩
  simp only [hookFailure, List.mem_map]
  exact ⟨sup, hsup, rfl⟩

/-- C6 witness: the theorem applied with supervisors 2 and 3 shows
supervisor 2 receives the failure event. -/
theorem failure_propagation_witness :
    ((2 : Nat), SupervisionEvent.actorFailed 1 "boom") ∈
      (hookFailure 1 [2, 3] "boom").2 :=
  (failure_propagation (σ := Nat) (ε := Nat) 0 1 [2, 3] "boom").2.2.2 2
    (by simp)

/-- A port already holding its single value rejects every further send. -/
theorem PortState.sendAll_holding (w : Int) (vs : List Int) :
    PortState.sendAll (.holding w) vs = (.holding w, 0) := by
  induction vs with
  | nil => rfl
  | cons v vs ih => simp [PortState.sendAll, PortState.send, ih]

/-- C7: at most one value is ever delivered through a Reply Port, no
matter how many sends are attempted; and the caller distinguishes a
closed-without-value outcome from a timeout as two separate error kinds
of the call result, every outcome being reported as a value of the
result type rather than a panic. -/
theorem call_reply_port_semantics :
    (∀ vs : List Int, (PortState.sendAll .empty vs).2 ≤ 1) ∧
    (CallError.closedNoValue == CallError.timedOut) = false ∧
    (∀ p : PortState, callOutcome true p = .error .timedOut) ∧
    callOutcome false .closed = .error .closedNoValue ∧
    callOutcome false .empty = .error .closedNoValue ∧
    (∀ v : Int, callOutcome false (.holding v) = .ok v) := by
  refine ⟨fun vs => ?_, rfl, fun p => rfl, rfl, rfl, fun v => rfl⟩
  cases vs with
  | nil => simp [PortState.sendAll]
  | cons v vs =>
      simp [PortState.sendAll, PortState.send, PortState.sendAll_holding]

end Ractor
